import Mathlib

/-!
Verification of the migration-tracking core of the kvm-node-agent repository.

The Go source is shallowly embedded:
* `internal/libvirt/libvirt_events.go` — lifecycle handlers, the migration
  watch registry (`startMigrationWatch` / `stopMigrationWatch`), the watch
  loop (`watchMigrationLoop`), the status patcher (`patchMigration`) and the
  job-stats decoder (`populateDomainJobInfo`);
* the utility file holding `UUID.String` and `ByteCountIEC`;
* `libvirt.go` — the event multiplexer (`runEventLoop`).

Machine integers are modelled as `Nat`/`Int` with explicit wrap-around where
the Go program can overflow.  Fallible calls are modelled with `Option` /
explicit error values.  Pointer mutation of the `Migration` object is
modelled by explicit state passing.
-/

namespace KvmNodeAgent

/-! ### Go `time.Duration.String`

Embeds the Go standard-library algorithm (`time.Duration.format`): values
below one second are printed with a sub-second unit, larger values as
`[Nh][Nm]N[.frac]s` with the fractional part's trailing zeros removed.
-/

/-- Go `fmtFrac`: strip the lowest `prec` digits of `v`, rendering them as a
fractional part (empty when all stripped digits are zero); returns the
rendered fraction and `v / 10^prec`.  Digits are consumed lowest-first and
prepended, exactly as the Go loop does. -/
def fmtFrac : Nat → Nat → String → Bool → String × Nat
  | v, 0, frac, printed => (if printed then "." ++ frac else "", v)
  | v, prec + 1, frac, printed =>
    let digit := v % 10
    let printed' := printed || decide (digit ≠ 0)
    let frac' := if printed' then (Nat.digitChar digit).toString ++ frac else frac
    fmtFrac (v / 10) prec frac' printed'

/-- Go `time.Duration.String` for a non-negative duration of `u`
nanoseconds. -/
def durationStringNat (u : Nat) : String :=
  if u < 1000000000 then
    -- less than one second: sub-second units, special case "0s"
    if u = 0 then "0s"
    else if u < 1000 then toString u ++ "ns"
    else if u < 1000000 then
      let fv := fmtFrac u 3 "" false
      toString fv.2 ++ fv.1 ++ "µs"
    else
      let fv := fmtFrac u 6 "" false
      toString fv.2 ++ fv.1 ++ "ms"
  else
    let fv := fmtFrac u 9 "" false
    let sec := fv.2
    let secPart := toString (sec % 60) ++ fv.1 ++ "s"
    let minutes := sec / 60
    if minutes = 0 then secPart
    else
      let minPart := toString (minutes % 60) ++ "m" ++ secPart
      let hours := minutes / 60
      if hours = 0 then minPart else toString hours ++ "h" ++ minPart

/-- Go `time.Duration.String` on a signed (int64) nanosecond count.  The Go
code negates through uint64, which also sends the minimal int64 to `2^63`,
matching `Int.toNat` of the exact negation. -/
def durationString (d : Int) : String :=
  if d < 0 then "-" ++ durationStringNat (-d).toNat else durationStringNat d.toNat

/-! ### `ByteCountIEC` -/

/-- The `div`/`exp` loop of `ByteCountIEC`:
`for n := b / unit; n >= unit; n /= unit { div *= unit; exp++ }`, with a
structural fuel for Lean's termination checker.  `n` strictly decreases on
every iteration (`n / 1024 < n` when `1024 ≤ n`), so a fuel of `n`
iterations never runs out and the fuelled function equals the Go loop on
every input. -/
def iecDivExpAux : Nat → Nat → Nat → Nat → Nat × Nat
  | 0, _, div, exp => (div, exp)
  | fuel + 1, n, div, exp =>
    if 1024 ≤ n then iecDivExpAux fuel (n / 1024) (div * 1024) (exp + 1)
    else (div, exp)

def iecDivExp (n div exp : Nat) : Nat × Nat := iecDivExpAux n n div exp

/-- Go `fmt.Sprintf("%.1f", x)` for the exact rational `b / div`, i.e. the
value rounded to one decimal digit, ties to even.  (The Go code rounds the
float64 quotient; for every input whose quotient is exactly representable —
in particular all inputs appearing in the claims — this agrees exactly.) -/
def formatTenths (b div : Nat) : String :=
  let num := 10 * b
  let q := num / div
  let r := num % div
  let tenths :=
    if div < 2 * r then q + 1
    else if 2 * r < div then q
    else if q % 2 = 1 then q + 1 else q
  toString (tenths / 10) ++ "." ++ toString (tenths % 10)

/-- Go `ByteCountIEC`: render a byte count with a binary prefix. -/
def ByteCountIEC (b : Nat) : String :=
  if b < 1024 then toString b ++ " B"
  else
    let de := iecDivExp (b / 1024) 1024 0
    formatTenths b de.1 ++ " " ++ ((String.toList "KMGTPE").getD de.2 'K').toString ++ "iB"

/-! ### Data model: `MigrationStatus` and typed job-stats parameters -/

/-- The host identity `sys.NodeLabelName`, an abstract read-only constant. -/
def nodeLabelName : String := "host-A"

/-- `v1alpha1.MigrationStatus`.  Field names follow the Go struct; the Go
field `Type` (the migration phase) is renamed `JobType` because `Type` is
reserved in Lean.  `Started`/`Origin`/`Destination` are the fields stamped
by `startMigrationWatch` and `populateDomainJobInfo` (the start timestamp
and origin/destination hosts of the record); the timestamp is an abstract
instant. -/
structure MigrationStatus where
  JobType : String := ""
  ErrMsg : String := ""
  AutoConvergeThrottle : String := ""
  DiskBps : String := ""
  DiskRemaining : String := ""
  DiskProcessed : String := ""
  DiskTotal : String := ""
  MemPostcopyRequests : Nat := 0
  MemIteration : Nat := 0
  MemPageSize : String := ""
  MemDirtyRate : String := ""
  MemBps : String := ""
  MemNormalBytes : String := ""
  MemNormal : Nat := 0
  MemConstant : Nat := 0
  MemRemaining : String := ""
  MemProcessed : String := ""
  MemTotal : String := ""
  DataRemaining : String := ""
  DataProcessed : String := ""
  DataTotal : String := ""
  SetupTime : String := ""
  TimeElapsed : String := ""
  TimeRemaining : String := ""
  Downtime : String := ""
  Operation : String := ""
  Started : Option Nat := none
  Origin : String := ""
  Destination : String := ""
  deriving Repr, DecidableEq, Inhabited

/-- A dynamically typed libvirt parameter value (`libvirt.TypedParamValue`).
Go's unchecked type assertions on it are modelled by the partial projections
below, `none` standing for a runtime panic. -/
inductive TypedValue
  | vi32 (v : Int)
  | vi64 (v : Int)
  | vu32 (v : Nat)
  | vu64 (v : Nat)
  | vstr (s : String)
  deriving Repr, DecidableEq

/-- A named typed parameter of a job-stats reply (`libvirt.TypedParam`). -/
structure TypedParam where
  field : String
  value : TypedValue
  deriving Repr, DecidableEq

def asI32 : TypedValue → Option Int
  | .vi32 v => some v
  | _ => none

def asI64 : TypedValue → Option Int
  | .vi64 v => some v
  | _ => none

def asU32 : TypedValue → Option Nat
  | .vu32 v => some v
  | _ => none

def asU64 : TypedValue → Option Nat
  | .vu64 v => some v
  | _ => none

def asStr : TypedValue → Option String
  | .vstr s => some s
  | _ => none

/-- Signed 64-bit wrap-around, as Go int64 arithmetic overflows. -/
def wrap64 (x : Int) : Int := (x + 2 ^ 63) % 2 ^ 64 - 2 ^ 63

/-- The libvirt job-type constants `VIR_DOMAIN_JOB_*`. -/
def VIR_DOMAIN_JOB_NONE : Int := 0
def VIR_DOMAIN_JOB_BOUNDED : Int := 1
def VIR_DOMAIN_JOB_UNBOUNDED : Int := 2
def VIR_DOMAIN_JOB_COMPLETED : Int := 3
def VIR_DOMAIN_JOB_FAILED : Int := 4
def VIR_DOMAIN_JOB_CANCELLED : Int := 5

/-- One arm of the parameter `switch` in `populateDomainJobInfo`: apply a
single named parameter to the status.  `none` models the panic of a failed
unchecked type assertion; unknown names fall through unchanged. -/
def applyParam (st : MigrationStatus) (p : TypedParam) : Option MigrationStatus :=
  if p.field = "operation" then
    (asI32 p.value).map fun v =>
      if v = 0 then { st with Operation := "unknown" }
      else if v = 1 then { st with Operation := "start" }
      else if v = 2 then { st with Operation := "save" }
      else if v = 3 then { st with Operation := "restore" }
      else if v = 4 then { st with Operation := "migration_in" }
      else if v = 5 then { st with Operation := "migration_out" }
      else if v = 6 then { st with Operation := "snapshot" }
      else if v = 7 then { st with Operation := "snapshot_revert" }
      else if v = 8 then { st with Operation := "dump" }
      else if v = 9 then { st with Operation := "backup" }
      else if v = 10 then { st with Operation := "snapshot_delete" }
      else st
  else if p.field = "time_elapsed" then
    (asI64 p.value).map fun v => { st with TimeElapsed := durationString (wrap64 (v * 1000 * 1000)) }
  else if p.field = "time_remaining" then
    (asU32 p.value).map fun v => { st with TimeRemaining := durationStringNat (v * 1000 * 1000 % 2 ^ 32) }
  else if p.field = "downtime" then
    (asI64 p.value).map fun v => { st with Downtime := durationString (wrap64 (v * 1000 * 1000)) }
  else if p.field = "setup_time" then
    (asI64 p.value).map fun v => { st with SetupTime := durationString (wrap64 (v * 1000 * 1000)) }
  else if p.field = "data_total" then
    (asU64 p.value).map fun v => { st with DataTotal := ByteCountIEC v }
  else if p.field = "data_processed" then
    (asU64 p.value).map fun v => { st with DataProcessed := ByteCountIEC v }
  else if p.field = "data_remaining" then
    (asU64 p.value).map fun v => { st with DataRemaining := ByteCountIEC v }
  else if p.field = "memory_total" then
    (asU64 p.value).map fun v => { st with MemTotal := ByteCountIEC v }
  else if p.field = "memory_processed" then
    (asU64 p.value).map fun v => { st with MemProcessed := ByteCountIEC v }
  else if p.field = "memory_remaining" then
    (asU64 p.value).map fun v => { st with MemRemaining := ByteCountIEC v }
  else if p.field = "memory_constant" then
    (asU64 p.value).map fun v => { st with MemConstant := v }
  else if p.field = "memory_normal" then
    (asU64 p.value).map fun v => { st with MemNormal := v }
  else if p.field = "memory_normal_bytes" then
    (asU64 p.value).map fun v => { st with MemNormalBytes := ByteCountIEC v }
  else if p.field = "memory_bps" then
    (asU64 p.value).map fun v => { st with MemBps := ByteCountIEC v ++ "/s" }
  else if p.field = "memory_dirty_rate" then
    (asU64 p.value).map fun v => { st with MemDirtyRate := toString v ++ "/s" }
  else if p.field = "memory_page_size" then
    (asU64 p.value).map fun v => { st with MemPageSize := ByteCountIEC v }
  else if p.field = "memory_iteration" then
    (asU64 p.value).map fun v => { st with MemIteration := v }
  else if p.field = "memory_postcopy_requests" then
    (asU64 p.value).map fun v => { st with MemPostcopyRequests := v }
  else if p.field = "disk_total" then
    (asU64 p.value).map fun v => { st with DiskTotal := ByteCountIEC v }
  else if p.field = "disk_processed" then
    (asU64 p.value).map fun v => { st with DiskProcessed := ByteCountIEC v }
  else if p.field = "disk_remaining" then
    (asU64 p.value).map fun v => { st with DiskRemaining := ByteCountIEC v }
  else if p.field = "disk_bps" then
    (asU64 p.value).map fun v => { st with DiskBps := ByteCountIEC v ++ "/s" }
  else if p.field = "auto_converge_throttle" then
    (asU64 p.value).map fun v => { st with AutoConvergeThrottle := toString v ++ "%" }
  else if p.field = "success" then
    -- the value is not inspected: no type assertion here
    some { st with JobType := "success" }
  else if p.field = "errmsg" then
    (asStr p.value).map fun s => { st with ErrMsg := s }
  else
    some st

/-- Error values visible to the migration-watch code.  `domainNotFound` is
the sentinel `errDomainNotFoud`; `daemonErr msg` is any other error coming
out of the libvirt call, carrying its `Error()` string. -/
inductive LibvirtErr
  | domainNotFound
  | daemonErr (msg : String)
  deriving Repr, DecidableEq

/-- `err.Error()` of a `LibvirtErr`. -/
def errString : LibvirtErr → String
  | .domainNotFound => "domain not found"
  | .daemonErr msg => msg

/-- Go `strings.HasSuffix`. -/
def goHasSuffix (s tail : String) : Bool := tail.toList.isSuffixOf s.toList

/-- Result of `populateDomainJobInfo`: a runtime panic (failed type
assertion) or the mutated status together with the returned error. -/
inductive DecodeResult
  | panic
  | ret (st : MigrationStatus) (err : Option LibvirtErr)
  deriving Repr, DecidableEq

/-- `populateDomainJobInfo`.  The reply of `DomainGetJobStats` (which the
Go function performs internally) is passed in:  either an error or the pair
of job type and parameter list.  The `completed` flag only selects the
flags of that call, so it does not appear here.  As in Go, `Destination` is
stamped before the daemon call, so it sticks even on the error paths
(the `migration` argument is mutated through a pointer). -/
def populateDomainJobInfo (reply : Except LibvirtErr (Int × List TypedParam))
    (st : MigrationStatus) : DecodeResult :=
  let st := { st with Destination := nodeLabelName }
  match reply with
  | .error e => .ret st (some e)
  | .ok (rType, params) =>
    if rType = VIR_DOMAIN_JOB_NONE then .ret st (some .domainNotFound)
    else
      let st :=
        if rType = VIR_DOMAIN_JOB_BOUNDED then { st with JobType := "bounded" }
        else if rType = VIR_DOMAIN_JOB_UNBOUNDED then { st with JobType := "unbounded" }
        else if rType = VIR_DOMAIN_JOB_COMPLETED then { st with JobType := "completed" }
        else if rType = VIR_DOMAIN_JOB_FAILED then { st with JobType := "failed" }
        else if rType = VIR_DOMAIN_JOB_CANCELLED then { st with JobType := "cancelled" }
        else st
      match params.foldlM applyParam st with
      | none => .panic
      | some st' => .ret st' none

/-! ### `patchMigration` and the watch-loop tick -/

/-- Errors `patchMigration` itself can return: the wrapped record-store
errors (`fmt.Errorf("failed to ...: %w", err)` around the k8s client
error). -/
inductive PatchErr
  | wrappedGet
  | wrappedPatch
  deriving Repr, DecidableEq

/-- `errors.Is(err, errDomainNotFoud)` on a `patchMigration` return value:
both wrapped chains contain only the record-store error, never the
`errDomainNotFoud` sentinel, so the check is always false. -/
def patchErrIsDomainNotFound : PatchErr → Bool := fun _ => false

/-- Observable outcome of one `patchMigration` call. -/
inductive PatchOutcome
  | panic
  /-- `client.Get` failed (record not found); returns the wrapped error,
  nothing written. -/
  | getFailed
  /-- returned `nil` after the "domain is not running" suffix match;
  nothing written. -/
  | skipped
  /-- `Status().Patch` was issued with this status; returns `nil`. -/
  | patched (st : MigrationStatus)
  deriving Repr, DecidableEq

/-- `patchMigration`.  `getResult` is the record-store read (`none` =
NotFound); `reply` is the daemon job-stats reply; `completed` is the
finalize flag.  The `Status().Patch` call itself is modelled as succeeding
(its failure path only wraps and returns the store error and is not
involved in any claim). -/
def patchMigration (getResult : Option MigrationStatus)
    (reply : Except LibvirtErr (Int × List TypedParam)) (completed : Bool) : PatchOutcome :=
  match getResult with
  | none => .getFailed
  | some original =>
    match populateDomainJobInfo reply original with
    | .panic => .panic
    | .ret st err =>
      match err with
      | some e =>
        if goHasSuffix (errString e) "domain is not running" then .skipped
        else if completed && decide (e = .domainNotFound) then
          .patched { st with JobType := "completed" }
        else
          -- the error is dropped; the patch below still runs
          .patched st
      | none => .patched st

/-- What one 1-second tick of `watchMigrationLoop` does after its
`patchMigration(ctx, domain, false)` call. -/
inductive TickResult
  /-- the goroutine crashes on a decoder panic -/
  | stopPanic
  /-- the loop `return`s (the reaped-job quirk branch) -/
  | stopReaped
  /-- the loop keeps polling; `wrote` is the status patched this tick, if
  any -/
  | continueTick (wrote : Option MigrationStatus)
  deriving Repr, DecidableEq

/-- One tick of `watchMigrationLoop`: run `patchMigration` with
`completed = false` and dispatch on its error exactly as the loop body
does. -/
def watchTick (getResult : Option MigrationStatus)
    (reply : Except LibvirtErr (Int × List TypedParam)) : TickResult :=
  match patchMigration getResult reply false with
  | .panic => .stopPanic
  | .getFailed =>
    if patchErrIsDomainNotFound .wrappedGet then .stopReaped
    else .continueTick none  -- logged as "failed updating migration status", loop continues
  | .skipped => .continueTick none
  | .patched st => .continueTick (some st)

/-! ### The event multiplexer loop (`runEventLoop`) -/

/-- Outcome of the `select` inside `runEventLoop` for one subscription
channel. -/
inductive SelectOutcome
  | ctxDone
  | disconnected
  /-- a receive on the event channel; `ok = false` means the channel is
  closed -/
  | recv (ok : Bool)
  /-- the `default` branch: no event available -/
  | noEvent
  deriving Repr, DecidableEq

/-- What the loop does next after one `select`. -/
inductive LoopAction
  | terminate
  /-- keep looping, having invoked the given handler ids (in order) -/
  | continueLoop (invoked : List String)
  deriving Repr, DecidableEq

/-- One `select` arm of `runEventLoop`, given the handlers registered for
the current event id: `ctx.Done` returns; a disconnect is logged and slept
on; a closed channel is logged and skipped (`continue`); a received event
is dispatched to every registered handler sequentially; `default` moves
on. -/
def runEventLoopStep (handlers : List String) : SelectOutcome → LoopAction
  | .ctxDone => .terminate
  | .disconnected => .continueLoop []  -- log + time.Sleep(5s), then loop again
  | .recv false => .continueLoop []    -- log "libvirt event channel closed", continue
  | .recv true => .continueLoop handlers
  | .noEvent => .continueLoop []

/-! ### The watch registry (`startMigrationWatch` / `stopMigrationWatch`)

State-transformer view.  The `migrationJobs` map (domain name → cancel
token) and the record store (record name → status) are association lists
with at most one binding per key; the mutex serializes the whole of
`startMigrationWatch` past its `Create` call, so each call is one atomic
state transition with respect to the map (see the op-trace model below for
the exact lock extent). -/

/-- The zero `MigrationStatus`, as `client.Create` of the empty
`v1alpha1.Migration{}` object persists it. -/
def emptyStatus : MigrationStatus := {}

/-- The in-memory state touched by the registry: the `migrationJobs` map,
the cluster record store, a fresh-token counter standing for
`context.WithTimeout`/`cancel` pairs, and the current time used by
`metav1.Now()`. -/
structure AgentState where
  migrationJobs : List (String × Nat) := []
  store : List (String × MigrationStatus) := []
  nextToken : Nat := 0
  now : Nat := 0
  deriving Repr, DecidableEq, Inhabited

/-- Replace the binding of `k` in an association list (no-op when
absent). -/
def storeSet (store : List (String × MigrationStatus)) (k : String)
    (v : MigrationStatus) : List (String × MigrationStatus) :=
  store.map fun kv => if kv.1 = k then (k, v) else kv

/-- `startMigrationWatch`:  `Create` the record tolerating already-exists;
under the mutex, return `nil` if the domain is already in `migrationJobs`;
otherwise `Get` the record, stamp `Started`/`Origin` via `Status().Patch`,
create the 60-minute cancel token, register it and spawn the watcher.
Returns the new state and whether the call returned `nil`. -/
def startMigrationWatch (st : AgentState) (domName uuid : String) : AgentState × Bool :=
  -- client.Create + client.IgnoreAlreadyExists
  let store1 := if (st.store.lookup uuid).isSome then st.store
    else st.store ++ [(uuid, emptyStatus)]
  if (st.migrationJobs.lookup domName).isSome then
    ({ st with store := store1 }, true)
  else
    match store1.lookup uuid with
    | none => ({ st with store := store1 }, false)  -- client.Get failed
    | some original =>
      let patched := { original with Started := some st.now, Origin := nodeLabelName }
      ({ st with
          store := storeSet store1 uuid patched,
          migrationJobs := (domName, st.nextToken) :: st.migrationJobs,
          nextToken := st.nextToken + 1 }, true)

/-- `stopMigrationWatch`: if the domain is registered, cancel its token and
delete the map entry (Go `delete` on a map; on the association list with
unique keys this removes the binding). -/
def stopMigrationWatch (st : AgentState) (domName : String) : AgentState :=
  if (st.migrationJobs.lookup domName).isSome then
    { st with migrationJobs := st.migrationJobs.filter fun kv => !(kv.1 = domName : Bool) }
  else st

/-- Number of `migrationJobs` bindings for a domain. -/
def countJobs (jobs : List (String × Nat)) (d : String) : Nat :=
  (jobs.filter fun kv => (kv.1 = d : Bool)).length

/-! ### Lock-extent trace of the registry functions

Each registry function is flattened into its sequence of atomic
operations, in source order, to settle what the mutex actually spans. -/

/-- The atomic operations of the registry functions. -/
inductive RegOp
  | persistCreate  -- l.client.Create
  | persistGet     -- l.client.Get
  | persistPatch   -- l.client.Status().Patch
  | lockAcquire    -- l.migrationLock.Lock()
  | lockRelease    -- l.migrationLock.Unlock() (deferred: runs at return)
  | mapRead        -- l.migrationJobs[...] lookup
  | mapInsert      -- l.migrationJobs[...] = cancel
  | mapDelete      -- delete(l.migrationJobs, ...)
  | cancelCall     -- cancel()
  | spawnWatcher   -- go l.watchMigrationLoop(...)
  | daemonCall     -- any libvirt call
  deriving Repr, DecidableEq

/-- Operation trace of `startMigrationWatch`, by `alreadyWatched`:
Create; Lock; map check; (early return) or (Get; Patch; token; map
insert; spawn); deferred Unlock. -/
def startMigrationWatchOps (alreadyWatched : Bool) : List RegOp :=
  [.persistCreate, .lockAcquire, .mapRead] ++
    (if alreadyWatched then [] else [.persistGet, .persistPatch, .mapInsert, .spawnWatcher]) ++
    [.lockRelease]

/-- Operation trace of `stopMigrationWatch`, by whether the domain is
registered.  The function takes no lock at all. -/
def stopMigrationWatchOps (watched : Bool) : List RegOp :=
  .mapRead :: (if watched then [.cancelCall, .mapDelete] else [])

/-- Is the registry mutex held while the `i`-th operation of `ops` runs
(acquired strictly before it and not yet released)? -/
def lockHeldAt (ops : List RegOp) (i : Nat) : Bool :=
  (ops.take i).count .lockRelease < (ops.take i).count .lockAcquire

/-- Operations classified as record-store (persistence) calls. -/
def isPersistOp : RegOp → Bool
  | .persistCreate | .persistGet | .persistPatch => true
  | _ => false

/-! ### Timing skeleton of `watchMigrationLoop`

`doneAt` is the instant the watcher context's `Done` channel fires: the
minimum of the explicit `cancel()` time and the absolute 60-minute
deadline of `context.WithTimeout`.  Each iteration `select`s the earlier
of `ctx.Done()` (ready from `doneAt` on) and the 1-second timer (firing at
`t + 1`); when the timer fires with the context already expired the
`ctx.Err() != nil` check returns without polling.  The result is the list
of instants at which the loop calls `patchMigration`, and the instant the
goroutine returns. -/
def watchLoopRun (doneAt : Nat) (t : Nat) : List Nat × Nat :=
  if h : doneAt ≤ t + 1 then ([], max t doneAt)
  else
    let rest := watchLoopRun doneAt (t + 1)
    ((t + 1) :: rest.1, rest.2)
  termination_by doneAt - t
  decreasing_by omega

/-! ### `UUID.String` (and `GetOpenstackUUID`) -/

/-- One lowercase hex digit, as `encoding/hex` renders it
(`hextable = "0123456789abcdef"`). -/
def hexDigitChar (n : Nat) : Char :=
  (String.toList "0123456789abcdef").getD n '0'

/-- `hex.Encode` of one byte: high nibble then low nibble. -/
def hexByte (b : Nat) : List Char := [hexDigitChar (b / 16), hexDigitChar (b % 16)]

/-- `hex.Encode` of a byte slice. -/
def hexEncode : List Nat → List Char
  | [] => []
  | b :: bs => hexByte b ++ hexEncode bs

/-- `UUID.String`: hex-encode the byte groups `[:4] [4:6] [6:8] [8:10]
[10:]` into the 36-byte buffer with `'-'` at offsets 8, 13, 18 and 23. -/
def uuidStringChars (u : List Nat) : List Char :=
  hexEncode (u.take 4) ++
    '-' :: (hexEncode ((u.drop 4).take 2) ++
      '-' :: (hexEncode ((u.drop 6).take 2) ++
        '-' :: (hexEncode ((u.drop 8).take 2) ++
          '-' :: hexEncode (u.drop 10))))

/-- `UUID.String` as a Lean string. -/
def uuidString (u : List Nat) : String := String.mk (uuidStringChars u)

/-- `GetOpenstackUUID`: `UUID(domain.UUID).String()` on the domain's
16-byte UUID. -/
def GetOpenstackUUID (u : List Nat) : String := uuidString u

/-- A lowercase hexadecimal character. -/
def isHexChar (c : Char) : Bool := (String.toList "0123456789abcdef").contains c

/-- Value of a hex character (inverse of `hexDigitChar` on digits). -/
def hexVal (c : Char) : Nat := (String.toList "0123456789abcdef").indexOf c

/-- Decode two hex characters back into a byte. -/
def hexDecodeByte (c₁ c₂ : Char) : Nat := 16 * hexVal c₁ + hexVal c₂

/-- The dynamic type each known parameter name is asserted to carry by the
unchecked type assertions of `populateDomainJobInfo` (branch for branch the
same `switch` as `applyParam`): int32 for `operation`; int64 for
`time_elapsed`, `downtime`, `setup_time`; uint32 for `time_remaining`;
uint64 for the byte-count and counter parameters; string for `errmsg`;
`success` is matched without inspecting its value, and unknown names are
ignored. -/
def wellTypedParam (p : TypedParam) : Bool :=
  if p.field = "operation" then (asI32 p.value).isSome
  else if p.field = "time_elapsed" then (asI64 p.value).isSome
  else if p.field = "time_remaining" then (asU32 p.value).isSome
  else if p.field = "downtime" then (asI64 p.value).isSome
  else if p.field = "setup_time" then (asI64 p.value).isSome
  else if p.field = "data_total" then (asU64 p.value).isSome
  else if p.field = "data_processed" then (asU64 p.value).isSome
  else if p.field = "data_remaining" then (asU64 p.value).isSome
  else if p.field = "memory_total" then (asU64 p.value).isSome
  else if p.field = "memory_processed" then (asU64 p.value).isSome
  else if p.field = "memory_remaining" then (asU64 p.value).isSome
  else if p.field = "memory_constant" then (asU64 p.value).isSome
  else if p.field = "memory_normal" then (asU64 p.value).isSome
  else if p.field = "memory_normal_bytes" then (asU64 p.value).isSome
  else if p.field = "memory_bps" then (asU64 p.value).isSome
  else if p.field = "memory_dirty_rate" then (asU64 p.value).isSome
  else if p.field = "memory_page_size" then (asU64 p.value).isSome
  else if p.field = "memory_iteration" then (asU64 p.value).isSome
  else if p.field = "memory_postcopy_requests" then (asU64 p.value).isSome
  else if p.field = "disk_total" then (asU64 p.value).isSome
  else if p.field = "disk_processed" then (asU64 p.value).isSome
  else if p.field = "disk_remaining" then (asU64 p.value).isSome
  else if p.field = "disk_bps" then (asU64 p.value).isSome
  else if p.field = "auto_converge_throttle" then (asU64 p.value).isSome
  else if p.field = "success" then true
  else if p.field = "errmsg" then (asStr p.value).isSome
  else true

/-! ## Theorems -/

/-- C3 (counterexample): the decoder multiplies `time_elapsed` by 10^6
before interpreting it as nanoseconds, so the value 5,000,000 comes out as
5 · 10^12 ns = "1h23m20s", not "5s" as the claim (reading the counter as
microseconds) states. -/
theorem C3_counterexample :
    populateDomainJobInfo
        (.ok (VIR_DOMAIN_JOB_BOUNDED, [⟨"time_elapsed", .vi64 5000000⟩])) {} =
      .ret { JobType := "bounded", TimeElapsed := "1h23m20s",
             Destination := nodeLabelName } none
    ∧ "1h23m20s" ≠ "5s" := by
  constructor
  · rfl
  · decide

/-- C3 (amended): the decoder scales the `time_elapsed` counter by 10^6 to
nanoseconds, i.e. treats it as milliseconds: the payload value 5,000
yields duration string "5s", and `data_total = 2,097,152` yields the
binary-prefixed string "2.0 MiB". -/
theorem C3_amended_decodes :
    populateDomainJobInfo
        (.ok (VIR_DOMAIN_JOB_BOUNDED,
          [⟨"time_elapsed", .vi64 5000⟩, ⟨"data_total", .vu64 2097152⟩])) {} =
      .ret { JobType := "bounded", TimeElapsed := "5s", DataTotal := "2.0 MiB",
             Destination := nodeLabelName } none := by
  rfl

/-- C4 (counterexample): `runEventLoop` does not terminate on a closed
subscription channel (it logs and `continue`s to the remaining
subscriptions) nor on the daemon-disconnect signal (it logs, sleeps 5 s and
keeps looping). -/
theorem C4_counterexample :
    runEventLoopStep ["migration-iteration-handler"] (.recv false) =
        .continueLoop []
    ∧ runEventLoopStep ["migration-iteration-handler"] .disconnected =
        .continueLoop []
    ∧ (.continueLoop [] : LoopAction) ≠ .terminate := by
  decide

/-- C4 (amended): the only `select` outcome that terminates `runEventLoop`
is context cancellation; a closed channel, a disconnect signal and an empty
poll all continue the loop, and a received event is dispatched to every
registered handler in order before continuing. -/
theorem C4_loop_terminates_only_on_ctxDone :
    ∀ (handlers : List String) (o : SelectOutcome),
      (runEventLoopStep handlers o = .terminate ↔ o = .ctxDone)
      ∧ runEventLoopStep handlers (.recv true) = .continueLoop handlers := by
  intro handlers o
  refine ⟨⟨fun h => ?_, fun h => by subst h; rfl⟩, rfl⟩
  cases o with
  | ctxDone => rfl
  | disconnected => exact absurd h (by simp [runEventLoopStep])
  | recv ok => cases ok <;> exact absurd h (by simp [runEventLoopStep])
  | noEvent => exact absurd h (by simp [runEventLoopStep])

/-- C6 (counterexample): a tick whose record read comes back NotFound does
perform no write, but the watch does not stop: `patchMigration` returns the
wrapped get error, which never matches the `errDomainNotFoud` sentinel, so
`watchMigrationLoop` merely logs it and keeps polling. -/
theorem C6_counterexample :
    watchTick none (.ok (VIR_DOMAIN_JOB_UNBOUNDED, [])) = .continueTick none
    ∧ (.continueTick none : TickResult) ≠ .stopReaped := by
  decide

/-- C6 (amended): on every tick whose `MigrationRecord` read is NotFound,
nothing is written in that tick, the error is logged, and the watcher keeps
polling (it ends only through cancellation or its deadline); the failure is
scoped to that single watcher's tick. -/
theorem C6_record_not_found_no_write_continues :
    ∀ reply : Except LibvirtErr (Int × List TypedParam),
      watchTick none reply = .continueTick none := by
  intro reply
  rfl

/-- C1 (counterexample): a tick decoding the terminal phase "completed"
writes the phase but the watcher does not stop: the tick result is
`continueTick`, not a stop, so the watch keeps polling and no registry
entry is removed. -/
theorem C1_counterexample :
    watchTick (some {}) (.ok (VIR_DOMAIN_JOB_COMPLETED, [])) =
      .continueTick (some { JobType := "completed", Destination := nodeLabelName })
    ∧ (.continueTick (some { JobType := "completed", Destination := nodeLabelName }) :
        TickResult) ≠ .stopReaped := by
  decide

/-- C1 (amended): no tick result ever takes `watchMigrationLoop`'s
reaped-job stop branch (`patchMigration` swallows the `errDomainNotFoud`
sentinel, so the branch is unreachable), and every tick that decodes
successfully — terminal phase included — patches the decoded status and
keeps polling; a tick decoding phase "bounded" keeps polling likewise.
The watcher ends only through its context (explicit `stopMigrationWatch`
or the 60-minute deadline), which is also the only place the registry
entry is removed. -/
theorem C1_terminal_tick_keeps_polling :
    (∀ (getResult : Option MigrationStatus)
        (reply : Except LibvirtErr (Int × List TypedParam)),
      watchTick getResult reply ≠ .stopReaped)
    ∧ ∀ (st st' : MigrationStatus) (rType : Int) (params : List TypedParam),
        populateDomainJobInfo (.ok (rType, params)) st = .ret st' none →
        watchTick (some st) (.ok (rType, params)) = .continueTick (some st') := by
  constructor
  · intro getResult reply
    unfold watchTick
    cases patchMigration getResult reply false <;>
      simp [patchErrIsDomainNotFound]
  · intro st st' rType params h
    simp [watchTick, patchMigration, h]

/-- Witness for `C1_terminal_tick_keeps_polling`: a tick decoding the
terminal phase "failed" still continues polling. -/
theorem C1_witness :
    watchTick (some {}) (.ok (VIR_DOMAIN_JOB_FAILED, [])) =
      .continueTick (some { JobType := "failed", Destination := nodeLabelName }) :=
  C1_terminal_tick_keeps_polling.2 {}
    { JobType := "failed", Destination := nodeLabelName }
    VIR_DOMAIN_JOB_FAILED [] (by decide)

/-- C2 (counterexample): in a finalize pass on a "no job present" reply,
the record written carries phase "completed" *and* the freshly stamped
destination host, so more than "only that field" is written; and outside a
finalize pass a "no job present" reply still issues a patch (writing the
destination host) instead of skipping the write. -/
theorem C2_counterexample :
    patchMigration (some {}) (.ok (VIR_DOMAIN_JOB_NONE, [])) true =
      .patched { JobType := "completed", Destination := nodeLabelName }
    ∧ ({ JobType := "completed", Destination := nodeLabelName } : MigrationStatus) ≠
        { JobType := "completed" }
    ∧ patchMigration (some {}) (.ok (VIR_DOMAIN_JOB_NONE, [])) false =
      .patched { Destination := nodeLabelName } := by
  decide

/-- C2 (amended): the no-write-and-continue path is taken when the daemon
call fails with an error ending in "domain is not running" (the race with a
locally stopped domain), not on a "no job present" decode.  On a "no job
present" decode during a finalize pass the phase is forced to "completed"
and the patch writes that field together with the destination host stamped
by the decoder, after which the pass ends; outside a finalize pass the
sentinel is swallowed and the tick still patches, changing only the
destination host. -/
theorem C2_no_job_quirks :
    ∀ st : MigrationStatus,
      (∀ msg : String, goHasSuffix msg "domain is not running" = true →
        patchMigration (some st) (.error (.daemonErr msg)) false = .skipped
        ∧ watchTick (some st) (.error (.daemonErr msg)) = .continueTick none)
      ∧ (∀ params, patchMigration (some st) (.ok (VIR_DOMAIN_JOB_NONE, params)) true =
          .patched { st with JobType := "completed", Destination := nodeLabelName })
      ∧ (∀ params, patchMigration (some st) (.ok (VIR_DOMAIN_JOB_NONE, params)) false =
          .patched { st with Destination := nodeLabelName }) := by
  intro st
  refine ⟨fun msg h => ⟨?_, ?_⟩, fun params => ?_, fun params => ?_⟩
  · simp [patchMigration, populateDomainJobInfo, errString, h]
  · simp [watchTick, patchMigration, populateDomainJobInfo, errString, h]
  · simp [patchMigration, populateDomainJobInfo, errString, VIR_DOMAIN_JOB_NONE]
    decide
  · simp [patchMigration, populateDomainJobInfo, errString, VIR_DOMAIN_JOB_NONE]
    decide

/-- Witness for `C2_no_job_quirks` at the concrete libvirt error text and
an empty parameter list. -/
theorem C2_witness :
    patchMigration (some {})
        (.error (.daemonErr "Requested operation is not valid: domain is not running"))
        false = .skipped
    ∧ patchMigration (some {}) (.ok (VIR_DOMAIN_JOB_NONE, [])) true =
        .patched { JobType := "completed", Destination := nodeLabelName } :=
  ⟨((C2_no_job_quirks {}).1 _ (by decide)).1, (C2_no_job_quirks {}).2.1 []⟩

/-- A parameter satisfying the decoder's type table decodes without
panic. -/
theorem applyParam_isSome (st : MigrationStatus) (p : TypedParam)
    (h : wellTypedParam p = true) : (applyParam st p).isSome := by
  unfold wellTypedParam at h
  unfold applyParam
  by_cases hc0 : p.field = "operation"
  · rw [if_pos hc0] at h ⊢
    rw [Option.isSome_map']
    exact h
  rw [if_neg hc0] at h ⊢
  by_cases hc1 : p.field = "time_elapsed"
  · rw [if_pos hc1] at h ⊢
    rw [Option.isSome_map']
    exact h
  rw [if_neg hc1] at h ⊢
  by_cases hc2 : p.field = "time_remaining"
  · rw [if_pos hc2] at h ⊢
    rw [Option.isSome_map']
    exact h
  rw [if_neg hc2] at h ⊢
  by_cases hc3 : p.field = "downtime"
  · rw [if_pos hc3] at h ⊢
    rw [Option.isSome_map']
    exact h
  rw [if_neg hc3] at h ⊢
  by_cases hc4 : p.field = "setup_time"
  · rw [if_pos hc4] at h ⊢
    rw [Option.isSome_map']
    exact h
  rw [if_neg hc4] at h ⊢
  by_cases hc5 : p.field = "data_total"
  · rw [if_pos hc5] at h ⊢
    rw [Option.isSome_map']
    exact h
  rw [if_neg hc5] at h ⊢
  by_cases hc6 : p.field = "data_processed"
  · rw [if_pos hc6] at h ⊢
    rw [Option.isSome_map']
    exact h
  rw [if_neg hc6] at h ⊢
  by_cases hc7 : p.field = "data_remaining"
  · rw [if_pos hc7] at h ⊢
    rw [Option.isSome_map']
    exact h
  rw [if_neg hc7] at h ⊢
  by_cases hc8 : p.field = "memory_total"
  · rw [if_pos hc8] at h ⊢
    rw [Option.isSome_map']
    exact h
  rw [if_neg hc8] at h ⊢
  by_cases hc9 : p.field = "memory_processed"
  · rw [if_pos hc9] at h ⊢
    rw [Option.isSome_map']
    exact h
  rw [if_neg hc9] at h ⊢
  by_cases hc10 : p.field = "memory_remaining"
  · rw [if_pos hc10] at h ⊢
    rw [Option.isSome_map']
    exact h
  rw [if_neg hc10] at h ⊢
  by_cases hc11 : p.field = "memory_constant"
  · rw [if_pos hc11] at h ⊢
    rw [Option.isSome_map']
    exact h
  rw [if_neg hc11] at h ⊢
  by_cases hc12 : p.field = "memory_normal"
  · rw [if_pos hc12] at h ⊢
    rw [Option.isSome_map']
    exact h
  rw [if_neg hc12] at h ⊢
  by_cases hc13 : p.field = "memory_normal_bytes"
  · rw [if_pos hc13] at h ⊢
    rw [Option.isSome_map']
    exact h
  rw [if_neg hc13] at h ⊢
  by_cases hc14 : p.field = "memory_bps"
  · rw [if_pos hc14] at h ⊢
    rw [Option.isSome_map']
    exact h
  rw [if_neg hc14] at h ⊢
  by_cases hc15 : p.field = "memory_dirty_rate"
  · rw [if_pos hc15] at h ⊢
    rw [Option.isSome_map']
    exact h
  rw [if_neg hc15] at h ⊢
  by_cases hc16 : p.field = "memory_page_size"
  · rw [if_pos hc16] at h ⊢
    rw [Option.isSome_map']
    exact h
  rw [if_neg hc16] at h ⊢
  by_cases hc17 : p.field = "memory_iteration"
  · rw [if_pos hc17] at h ⊢
    rw [Option.isSome_map']
    exact h
  rw [if_neg hc17] at h ⊢
  by_cases hc18 : p.field = "memory_postcopy_requests"
  · rw [if_pos hc18] at h ⊢
    rw [Option.isSome_map']
    exact h
  rw [if_neg hc18] at h ⊢
  by_cases hc19 : p.field = "disk_total"
  · rw [if_pos hc19] at h ⊢
    rw [Option.isSome_map']
    exact h
  rw [if_neg hc19] at h ⊢
  by_cases hc20 : p.field = "disk_processed"
  · rw [if_pos hc20] at h ⊢
    rw [Option.isSome_map']
    exact h
  rw [if_neg hc20] at h ⊢
  by_cases hc21 : p.field = "disk_remaining"
  · rw [if_pos hc21] at h ⊢
    rw [Option.isSome_map']
    exact h
  rw [if_neg hc21] at h ⊢
  by_cases hc22 : p.field = "disk_bps"
  · rw [if_pos hc22] at h ⊢
    rw [Option.isSome_map']
    exact h
  rw [if_neg hc22] at h ⊢
  by_cases hc23 : p.field = "auto_converge_throttle"
  · rw [if_pos hc23] at h ⊢
    rw [Option.isSome_map']
    exact h
  rw [if_neg hc23] at h ⊢
  by_cases hc24 : p.field = "success"
  · rw [if_pos hc24]
    rfl
  rw [if_neg hc24] at h ⊢
  by_cases hc25 : p.field = "errmsg"
  · rw [if_pos hc25] at h ⊢
    rw [Option.isSome_map']
    exact h
  rw [if_neg hc25] at h ⊢
  rfl

/-- Folding well-typed parameters never panics. -/
theorem foldlM_applyParam_isSome (params : List TypedParam) :
    ∀ st : MigrationStatus, (∀ p ∈ params, wellTypedParam p = true) →
      (params.foldlM applyParam st).isSome := by
  induction params with
  | nil => intro st _; simp
  | cons p rest ih =>
    intro st h
    obtain ⟨st1, hst1⟩ :=
      Option.isSome_iff_exists.mp (applyParam_isSome st p (h p (by simp)))
    rw [List.foldlM_cons]
    simp only [hst1, Option.bind_eq_bind, Option.some_bind]
    exact ih st1 fun q hq => h q (by simp [hq])

/-- An `Option` that is not `isSome` is `none`. -/
theorem eq_none_of_isSome_eq_false {a : Type} (x : Option a) (h : x.isSome = false) :
    x = none := by
  cases x with
  | none => rfl
  | some v => simp at h

/-- A known-named parameter carrying the wrong dynamic type makes its
decoder arm panic, whatever the current status: each arm's unchecked type
assertion looks only at the parameter. -/
theorem applyParam_none_of_ill_typed (p : TypedParam)
    (h : wellTypedParam p = false) : ∀ st : MigrationStatus, applyParam st p = none := by
  intro st
  unfold wellTypedParam at h
  unfold applyParam
  by_cases hd0 : p.field = "operation"
  · rw [if_pos hd0] at h ⊢
    rw [eq_none_of_isSome_eq_false _ h]
    rfl
  rw [if_neg hd0] at h ⊢
  by_cases hd1 : p.field = "time_elapsed"
  · rw [if_pos hd1] at h ⊢
    rw [eq_none_of_isSome_eq_false _ h]
    rfl
  rw [if_neg hd1] at h ⊢
  by_cases hd2 : p.field = "time_remaining"
  · rw [if_pos hd2] at h ⊢
    rw [eq_none_of_isSome_eq_false _ h]
    rfl
  rw [if_neg hd2] at h ⊢
  by_cases hd3 : p.field = "downtime"
  · rw [if_pos hd3] at h ⊢
    rw [eq_none_of_isSome_eq_false _ h]
    rfl
  rw [if_neg hd3] at h ⊢
  by_cases hd4 : p.field = "setup_time"
  · rw [if_pos hd4] at h ⊢
    rw [eq_none_of_isSome_eq_false _ h]
    rfl
  rw [if_neg hd4] at h ⊢
  by_cases hd5 : p.field = "data_total"
  · rw [if_pos hd5] at h ⊢
    rw [eq_none_of_isSome_eq_false _ h]
    rfl
  rw [if_neg hd5] at h ⊢
  by_cases hd6 : p.field = "data_processed"
  · rw [if_pos hd6] at h ⊢
    rw [eq_none_of_isSome_eq_false _ h]
    rfl
  rw [if_neg hd6] at h ⊢
  by_cases hd7 : p.field = "data_remaining"
  · rw [if_pos hd7] at h ⊢
    rw [eq_none_of_isSome_eq_false _ h]
    rfl
  rw [if_neg hd7] at h ⊢
  by_cases hd8 : p.field = "memory_total"
  · rw [if_pos hd8] at h ⊢
    rw [eq_none_of_isSome_eq_false _ h]
    rfl
  rw [if_neg hd8] at h ⊢
  by_cases hd9 : p.field = "memory_processed"
  · rw [if_pos hd9] at h ⊢
    rw [eq_none_of_isSome_eq_false _ h]
    rfl
  rw [if_neg hd9] at h ⊢
  by_cases hd10 : p.field = "memory_remaining"
  · rw [if_pos hd10] at h ⊢
    rw [eq_none_of_isSome_eq_false _ h]
    rfl
  rw [if_neg hd10] at h ⊢
  by_cases hd11 : p.field = "memory_constant"
  · rw [if_pos hd11] at h ⊢
    rw [eq_none_of_isSome_eq_false _ h]
    rfl
  rw [if_neg hd11] at h ⊢
  by_cases hd12 : p.field = "memory_normal"
  · rw [if_pos hd12] at h ⊢
    rw [eq_none_of_isSome_eq_false _ h]
    rfl
  rw [if_neg hd12] at h ⊢
  by_cases hd13 : p.field = "memory_normal_bytes"
  · rw [if_pos hd13] at h ⊢
    rw [eq_none_of_isSome_eq_false _ h]
    rfl
  rw [if_neg hd13] at h ⊢
  by_cases hd14 : p.field = "memory_bps"
  · rw [if_pos hd14] at h ⊢
    rw [eq_none_of_isSome_eq_false _ h]
    rfl
  rw [if_neg hd14] at h ⊢
  by_cases hd15 : p.field = "memory_dirty_rate"
  · rw [if_pos hd15] at h ⊢
    rw [eq_none_of_isSome_eq_false _ h]
    rfl
  rw [if_neg hd15] at h ⊢
  by_cases hd16 : p.field = "memory_page_size"
  · rw [if_pos hd16] at h ⊢
    rw [eq_none_of_isSome_eq_false _ h]
    rfl
  rw [if_neg hd16] at h ⊢
  by_cases hd17 : p.field = "memory_iteration"
  · rw [if_pos hd17] at h ⊢
    rw [eq_none_of_isSome_eq_false _ h]
    rfl
  rw [if_neg hd17] at h ⊢
  by_cases hd18 : p.field = "memory_postcopy_requests"
  · rw [if_pos hd18] at h ⊢
    rw [eq_none_of_isSome_eq_false _ h]
    rfl
  rw [if_neg hd18] at h ⊢
  by_cases hd19 : p.field = "disk_total"
  · rw [if_pos hd19] at h ⊢
    rw [eq_none_of_isSome_eq_false _ h]
    rfl
  rw [if_neg hd19] at h ⊢
  by_cases hd20 : p.field = "disk_processed"
  · rw [if_pos hd20] at h ⊢
    rw [eq_none_of_isSome_eq_false _ h]
    rfl
  rw [if_neg hd20] at h ⊢
  by_cases hd21 : p.field = "disk_remaining"
  · rw [if_pos hd21] at h ⊢
    rw [eq_none_of_isSome_eq_false _ h]
    rfl
  rw [if_neg hd21] at h ⊢
  by_cases hd22 : p.field = "disk_bps"
  · rw [if_pos hd22] at h ⊢
    rw [eq_none_of_isSome_eq_false _ h]
    rfl
  rw [if_neg hd22] at h ⊢
  by_cases hd23 : p.field = "auto_converge_throttle"
  · rw [if_pos hd23] at h ⊢
    rw [eq_none_of_isSome_eq_false _ h]
    rfl
  rw [if_neg hd23] at h ⊢
  by_cases hd24 : p.field = "success"
  · rw [if_pos hd24] at h
    exact absurd h (by decide)
  rw [if_neg hd24] at h ⊢
  by_cases hd25 : p.field = "errmsg"
  · rw [if_pos hd25] at h ⊢
    rw [eq_none_of_isSome_eq_false _ h]
    rfl
  rw [if_neg hd25] at h ⊢
  exact absurd h (by decide)

/-- Folding a parameter list that contains an ill-typed known-named
parameter always panics: the fold short-circuits at the first `none`. -/
theorem foldlM_applyParam_none (params : List TypedParam) :
    ∀ st : MigrationStatus, (∃ p ∈ params, wellTypedParam p = false) →
      params.foldlM applyParam st = none := by
  induction params with
  | nil =>
    intro st h
    obtain ⟨p, hp, -⟩ := h
    exact absurd hp (List.not_mem_nil p)
  | cons q rest ih =>
    intro st h
    rw [List.foldlM_cons]
    obtain ⟨p, hp, hbad⟩ := h
    rcases List.mem_cons.mp hp with rfl | hmem
    · rw [applyParam_none_of_ill_typed p hbad st]
      rfl
    · cases hq : applyParam st q with
      | none => rfl
      | some st1 =>
        simp only [Option.bind_eq_bind, Option.some_bind]
        exact ih st1 ⟨p, hmem, hbad⟩

/-- C9: the job-stats decoder is total exactly under the precondition that
every known-named parameter carries the dynamic type its unchecked type
assertion expects (int32 `operation`; int64 `time_elapsed` / `downtime` /
`setup_time`; uint32 `time_remaining`; uint64 byte counts and counters;
string `errmsg`); and for *any* parameter list of a present job in which
some known-named parameter carries a different dynamic type, the unchecked
type assertion panics (a "no job present" reply returns before the
parameter loop, so no decoding happens there).  Concretely, `time_elapsed`
carrying a uint64 panics, and the panic crashes the watcher's tick instead
of being handled as a transient error. -/
theorem C9_decoder_totality_and_panic :
    (∀ (st : MigrationStatus) (rType : Int) (params : List TypedParam),
        (∀ p ∈ params, wellTypedParam p = true) →
        populateDomainJobInfo (.ok (rType, params)) st ≠ .panic)
    ∧ (∀ (st : MigrationStatus) (rType : Int) (params : List TypedParam),
        rType ≠ VIR_DOMAIN_JOB_NONE →
        (∃ p ∈ params, wellTypedParam p = false) →
        populateDomainJobInfo (.ok (rType, params)) st = .panic)
    ∧ populateDomainJobInfo
        (.ok (VIR_DOMAIN_JOB_UNBOUNDED, [⟨"time_elapsed", .vu64 5⟩])) {} = .panic
    ∧ watchTick (some {})
        (.ok (VIR_DOMAIN_JOB_UNBOUNDED, [⟨"time_elapsed", .vu64 5⟩])) = .stopPanic := by
  refine ⟨?_, ?_, by decide, by decide⟩
  · intro st rType params h
    have key : ∀ st0 : MigrationStatus, List.foldlM applyParam st0 params ≠ none :=
      fun st0 =>
        Option.isSome_iff_ne_none.mp (foldlM_applyParam_isSome params st0 h)
    simp only [populateDomainJobInfo]
    split
    · simp
    · split
      · next heq => exact absurd heq (key _)
      · simp
  · intro st rType params hne hex
    simp only [populateDomainJobInfo]
    split
    · next hr => exact absurd hr hne
    · split
      · rfl
      · next st' heq =>
        rw [foldlM_applyParam_none params _ hex] at heq
        exact absurd heq (by simp)

/-- Witness for `C9_decoder_totality_and_panic`: a well-typed payload does
not panic, while the same payload with one known-named parameter switched
to a wrong dynamic type panics. -/
theorem C9_witness :
    populateDomainJobInfo
        (.ok (VIR_DOMAIN_JOB_BOUNDED,
          [⟨"time_remaining", .vu32 7⟩, ⟨"errmsg", .vstr "x"⟩])) {} ≠ .panic
    ∧ populateDomainJobInfo
        (.ok (VIR_DOMAIN_JOB_BOUNDED,
          [⟨"time_remaining", .vu32 7⟩, ⟨"errmsg", .vu64 3⟩])) {} = .panic :=
  ⟨C9_decoder_totality_and_panic.1 {} VIR_DOMAIN_JOB_BOUNDED
      [⟨"time_remaining", .vu32 7⟩, ⟨"errmsg", .vstr "x"⟩] (by decide),
    C9_decoder_totality_and_panic.2.1 {} VIR_DOMAIN_JOB_BOUNDED
      [⟨"time_remaining", .vu32 7⟩, ⟨"errmsg", .vu64 3⟩] (by decide)
      ⟨⟨"errmsg", .vu64 3⟩, by decide, by decide⟩⟩

/-- C5 (counterexample): in `startMigrationWatch` with the domain not yet
watched, the record-store `Get` (operation index 3 of the trace) runs with
the registry mutex held — the mutex does span persistence calls — and
`stopMigrationWatch` performs its cancel-and-remove without ever acquiring
the mutex. -/
theorem C5_counterexample :
    lockHeldAt (startMigrationWatchOps false) 3 = true
    ∧ (startMigrationWatchOps false).getD 3 .daemonCall = .persistGet
    ∧ isPersistOp .persistGet = true
    ∧ (stopMigrationWatchOps true).count .lockAcquire = 0
    ∧ .mapDelete ∈ stopMigrationWatchOps true := by
  decide

/-- C5 (amended): in `startMigrationWatch` the mutex is acquired after the
`Create` call and held until the function returns, so it spans the map
check, the record `Get`, the status `Patch`, the map insert and the watcher
spawn (only the `Create` runs outside it); neither registry function makes
a daemon call; `stopMigrationWatch` cancels and removes the token without
taking the mutex at all. -/
theorem C5_lock_extent :
    ∀ b : Bool,
      ((List.range (startMigrationWatchOps b).length).filter
          (fun i => lockHeldAt (startMigrationWatchOps b) i)).map
          (fun i => (startMigrationWatchOps b).getD i .daemonCall) =
        (if b then [.mapRead, .lockRelease]
         else [.mapRead, .persistGet, .persistPatch, .mapInsert, .spawnWatcher,
               .lockRelease])
      ∧ lockHeldAt (startMigrationWatchOps b) 0 = false
      ∧ (startMigrationWatchOps b).getD 0 .daemonCall = .persistCreate
      ∧ .daemonCall ∉ startMigrationWatchOps b
      ∧ .daemonCall ∉ stopMigrationWatchOps b
      ∧ (stopMigrationWatchOps b).count .lockAcquire = 0
      ∧ stopMigrationWatchOps true = [.mapRead, .cancelCall, .mapDelete]
      ∧ stopMigrationWatchOps false = [.mapRead] := by
  decide

/-- The watch loop started at `t` with its context firing at `doneAt ≥ t`
returns exactly at `doneAt`, and every poll it performs lies strictly
between `t` and `doneAt`. -/
theorem watchLoopRun_spec (doneAt : Nat) :
    ∀ t : Nat, t ≤ doneAt →
      (watchLoopRun doneAt t).2 = doneAt
      ∧ ∀ p ∈ (watchLoopRun doneAt t).1, t < p ∧ p < doneAt := by
  intro t ht
  obtain ⟨n, hn⟩ : ∃ n, doneAt - t = n := ⟨_, rfl⟩
  induction n generalizing t with
  | zero =>
    have heq : doneAt = t := by omega
    rw [watchLoopRun]
    rw [dif_pos (by omega)]
    simp [heq]
  | succ n ih =>
    rw [watchLoopRun]
    by_cases hd : doneAt ≤ t + 1
    · rw [dif_pos hd]
      have heq : doneAt = t + 1 := by omega
      simp [heq]
    · rw [dif_neg hd]
      obtain ⟨ih2, ihp⟩ := ih (t + 1) (by omega) (by omega)
      refine ⟨ih2, ?_⟩
      intro p hp
      rcases List.mem_cons.mp hp with h1 | h2
      · omega
      · have := ihp p h2
        omega

/-- C8: a watch started at `T` whose context `Done` fires at `doneAt` — the
minimum of an explicit cancel and the absolute 60-minute (3600 s) deadline
set by `context.WithTimeout`, hence `doneAt ≤ T + 3600` — is force-stopped
at or before `T + 3600`, and every poll it ever performs happens strictly
before `T + 3600`, independently of what the daemon replies (the loop's
timing does not depend on tick outcomes; a decoder panic or the — in fact
unreachable — reaped-job stop only end it earlier). -/
theorem C8_watch_deadline (T doneAt : Nat) (hstart : T ≤ doneAt)
    (hdeadline : doneAt ≤ T + 3600) :
    (watchLoopRun doneAt T).2 ≤ T + 3600
    ∧ ∀ p ∈ (watchLoopRun doneAt T).1, p < T + 3600 := by
  obtain ⟨h2, hp⟩ := watchLoopRun_spec doneAt T hstart
  exact ⟨by omega, fun p hmem => by have := (hp p hmem).2; omega⟩

/-- Witness for `C8_watch_deadline`: a watch started at time 0 that is
never explicitly cancelled (`doneAt = 3600`). -/
theorem C8_witness :
    (watchLoopRun 3600 0).2 ≤ 0 + 3600
    ∧ ∀ p ∈ (watchLoopRun 3600 0).1, p < 0 + 3600 :=
  C8_watch_deadline 0 3600 (by decide) (by decide)

/-- Looking up the key of an appended singleton binding succeeds. -/
theorem lookup_append_single_isSome (l : List (String × MigrationStatus))
    (u : String) (v : MigrationStatus) : ((l ++ [(u, v)]).lookup u).isSome := by
  induction l with
  | nil => simp [List.lookup]
  | cons kv t ih =>
    rcases kv with ⟨k, w⟩
    rw [List.cons_append, List.lookup_cons]
    by_cases h : u == k
    · simp [h]
    · simp only [h]
      exact ih

/-- `storeSet` preserves presence of the written key. -/
theorem lookup_storeSet_isSome (l : List (String × MigrationStatus))
    (u : String) (v : MigrationStatus) (h : (l.lookup u).isSome) :
    ((storeSet l u v).lookup u).isSome := by
  induction l with
  | nil => simp at h
  | cons kv t ih =>
    rcases kv with ⟨k, w⟩
    rw [List.lookup_cons] at h
    by_cases hk : k = u
    · subst hk
      simp [storeSet, List.lookup_cons]
    · have huk : (u == k) = false := by
        simpa using fun he => hk he.symm
      rw [huk] at h
      simp only [storeSet, List.map_cons, if_neg hk]
      rw [List.lookup_cons, huk]
      exact ih h

/-- A domain with no `migrationJobs` binding is not looked up. -/
theorem lookup_eq_none_of_countJobs_zero (jobs : List (String × Nat)) (d : String)
    (h : countJobs jobs d = 0) : jobs.lookup d = none := by
  induction jobs with
  | nil => rfl
  | cons kv t ih =>
    rcases kv with ⟨k, w⟩
    unfold countJobs at h
    rw [List.filter_cons] at h
    by_cases hk : k = d
    · simp [hk] at h
    · simp only [decide_eq_true_eq, if_neg hk] at h
      rw [List.lookup_cons]
      have hdk : (d == k) = false := by
        simpa using fun he => hk he.symm
      rw [hdk]
      exact ih h

/-- Presence of a binding forces a positive count. -/
theorem countJobs_pos_of_lookup_isSome (jobs : List (String × Nat)) (d : String)
    (h : (jobs.lookup d).isSome) : countJobs jobs d ≠ 0 := by
  intro h0
  rw [lookup_eq_none_of_countJobs_zero jobs d h0] at h
  simp at h

/-- Registering a fresh binding adds exactly one to the count. -/
theorem countJobs_cons_self (jobs : List (String × Nat)) (d : String) (tok : Nat) :
    countJobs ((d, tok) :: jobs) d = countJobs jobs d + 1 := by
  unfold countJobs
  rw [List.filter_cons]
  simp

/-- The create-if-absent step always leaves the record present. -/
theorem createIfAbsent_lookup_isSome (store : List (String × MigrationStatus))
    (u : String) :
    (((if (store.lookup u).isSome then store
        else store ++ [(u, emptyStatus)]).lookup u)).isSome := by
  cases hs : (store.lookup u).isSome
  · simp only [hs, Bool.false_eq_true, if_false]
    exact lookup_append_single_isSome store u emptyStatus
  · simp [hs]

/-- `startMigrationWatch` on an already-watched domain whose record exists
is the identity (and returns `nil`). -/
theorem startMigrationWatch_watched (st : AgentState) (d u : String)
    (hw : (st.migrationJobs.lookup d).isSome = true)
    (hs : (st.store.lookup u).isSome = true) :
    startMigrationWatch st d u = (st, true) := by
  unfold startMigrationWatch
  simp only [hs, hw, if_true]

/-- `startMigrationWatch` on an already-watched domain with a missing
record only re-creates the record. -/
theorem startMigrationWatch_watched_grow (st : AgentState) (d u : String)
    (hw : (st.migrationJobs.lookup d).isSome = true)
    (hs : (st.store.lookup u).isSome = false) :
    startMigrationWatch st d u =
      ({ st with store := st.store ++ [(u, emptyStatus)] }, true) := by
  unfold startMigrationWatch
  simp only [hs, hw, if_true, Bool.false_eq_true, if_false]

/-- `startMigrationWatch` on an unwatched domain stamps the record and
registers the token. -/
theorem startMigrationWatch_unwatched (st : AgentState) (d u : String)
    (hw : (st.migrationJobs.lookup d).isSome = false)
    (orig : MigrationStatus)
    (horig : ((if (st.store.lookup u).isSome then st.store
        else st.store ++ [(u, emptyStatus)]).lookup u) = some orig) :
    startMigrationWatch st d u =
      ({ st with
          store := storeSet
            (if (st.store.lookup u).isSome then st.store
             else st.store ++ [(u, emptyStatus)]) u
            { orig with Started := some st.now, Origin := nodeLabelName },
          migrationJobs := (d, st.nextToken) :: st.migrationJobs,
          nextToken := st.nextToken + 1 }, true) := by
  unfold startMigrationWatch
  simp only [hw, Bool.false_eq_true, if_false]
  rw [horig]

/-- C7: `startMigrationWatch` is idempotent — every call returns success,
a call on an already-watched domain leaves the state untouched, and a
first call registers exactly one `migrationJobs` binding for the domain.
Under the registry mutex the map check and insert are one atomic section,
so concurrent calls serialize into exactly this sequential composition. -/
theorem C7_startWatch_idempotent :
    ∀ (st : AgentState) (d u : String),
      (startMigrationWatch st d u).2 = true
      ∧ startMigrationWatch (startMigrationWatch st d u).1 d u =
          ((startMigrationWatch st d u).1, true)
      ∧ (countJobs st.migrationJobs d = 0 →
          countJobs (startMigrationWatch st d u).1.migrationJobs d = 1) := by
  intro st d u
  cases hw : (st.migrationJobs.lookup d).isSome with
  | true =>
    have hcount : countJobs st.migrationJobs d ≠ 0 :=
      countJobs_pos_of_lookup_isSome st.migrationJobs d hw
    cases hs : (st.store.lookup u).isSome with
    | true =>
      have e1 := startMigrationWatch_watched st d u hw hs
      refine ⟨by rw [e1], ?_, fun h0 => absurd h0 hcount⟩
      rw [e1]
      exact startMigrationWatch_watched st d u hw hs
    | false =>
      have e1 := startMigrationWatch_watched_grow st d u hw hs
      refine ⟨by rw [e1], ?_, fun h0 => absurd h0 hcount⟩
      rw [e1]
      exact startMigrationWatch_watched _ d u hw
        (lookup_append_single_isSome st.store u emptyStatus)
  | false =>
    obtain ⟨orig, horig⟩ :=
      Option.isSome_iff_exists.mp (createIfAbsent_lookup_isSome st.store u)
    have e1 := startMigrationWatch_unwatched st d u hw orig horig
    refine ⟨by rw [e1], ?_, ?_⟩
    · rw [e1]
      apply startMigrationWatch_watched
      · show ((((d, st.nextToken) :: st.migrationJobs).lookup d)).isSome = true
        rw [List.lookup_cons]
        simp
      · exact lookup_storeSet_isSome _ u _ (by rw [horig]; rfl)
    · intro h0
      rw [e1]
      show countJobs ((d, st.nextToken) :: st.migrationJobs) d = 1
      rw [countJobs_cons_self, h0]

/-- Witness for `C7_startWatch_idempotent` at a concrete fresh state. -/
theorem C7_witness :
    (startMigrationWatch {} "vm-1" "c7-uuid").2 = true
    ∧ startMigrationWatch (startMigrationWatch {} "vm-1" "c7-uuid").1 "vm-1" "c7-uuid" =
        ((startMigrationWatch {} "vm-1" "c7-uuid").1, true)
    ∧ (countJobs ({} : AgentState).migrationJobs "vm-1" = 0 →
        countJobs (startMigrationWatch {} "vm-1" "c7-uuid").1.migrationJobs "vm-1" = 1) :=
  C7_startWatch_idempotent {} "vm-1" "c7-uuid"

/-! ### Facts about the UUID encoding -/

/-- Every byte list encodes into twice as many characters. -/
theorem hexEncode_length (l : List Nat) : (hexEncode l).length = 2 * l.length := by
  induction l with
  | nil => rfl
  | cons b t ih =>
    simp only [hexEncode, hexByte, List.cons_append, List.length_cons,
      List.nil_append, ih, List.length_append]
    omega

/-- Hex digits of in-range nibbles are lowercase hex characters. -/
theorem isHexChar_hexDigitChar (d : Nat) (hd : d < 16) :
    isHexChar (hexDigitChar d) := by
  have key : ∀ f : Fin 16, isHexChar (hexDigitChar f.val) := by decide
  exact key ⟨d, hd⟩

/-- Every character of the hex encoding of a byte list is a lowercase hex
character. -/
theorem mem_hexEncode_isHex (l : List Nat) (hl : ∀ x ∈ l, x < 256) :
    ∀ c ∈ hexEncode l, isHexChar c := by
  induction l with
  | nil => intro c hc; simp [hexEncode] at hc
  | cons b t ih =>
    intro c hc
    have hb : b < 256 := hl b (by simp)
    simp only [hexEncode, hexByte, List.cons_append, List.nil_append,
      List.mem_cons] at hc
    rcases hc with h1 | h2 | h3
    · subst h1; exact isHexChar_hexDigitChar _ (by omega)
    · subst h2
      exact isHexChar_hexDigitChar _ (Nat.mod_lt _ (by norm_num))
    · exact ih (fun x hx => hl x (by simp [hx])) c h3

/-- A lowercase hex character is not the dash. -/
theorem ne_dash_of_isHexChar (c : Char) (h : isHexChar c) : c ≠ '-' := by
  intro he
  subst he
  exact absurd h (by decide)

/-- The hex encoding of a byte list contains no dash. -/
theorem count_dash_hexEncode (l : List Nat) (hl : ∀ x ∈ l, x < 256) :
    (hexEncode l).count '-' = 0 :=
  List.count_eq_zero.mpr fun hmem =>
    ne_dash_of_isHexChar '-' (mem_hexEncode_isHex l hl '-' hmem) rfl

/-- `hexVal` inverts `hexDigitChar` on nibbles. -/
theorem hexVal_hexDigitChar (d : Nat) (hd : d < 16) :
    hexVal (hexDigitChar d) = d := by
  have key : ∀ f : Fin 16, hexVal (hexDigitChar f.val) = f.val := by decide
  exact key ⟨d, hd⟩

/-- `hexDecodeByte` inverts `hexByte` on bytes. -/
theorem hexDecode_hexByte (b : Nat) (hb : b < 256) :
    hexDecodeByte (hexDigitChar (b / 16)) (hexDigitChar (b % 16)) = b := by
  have h1 : b / 16 < 16 := by omega
  have h2 : b % 16 < 16 := Nat.mod_lt _ (by norm_num)
  unfold hexDecodeByte
  rw [hexVal_hexDigitChar _ h1, hexVal_hexDigitChar _ h2]
  exact Nat.div_add_mod b 16

/-- `hexEncode` is injective on byte lists. -/
theorem hexEncode_inj (l1 : List Nat) :
    ∀ l2 : List Nat, (∀ x ∈ l1, x < 256) → (∀ x ∈ l2, x < 256) →
      hexEncode l1 = hexEncode l2 → l1 = l2 := by
  induction l1 with
  | nil =>
    intro l2 _ _ he
    cases l2 with
    | nil => rfl
    | cons b t => simp [hexEncode, hexByte] at he
  | cons a t ih =>
    intro l2 h1 h2 he
    cases l2 with
    | nil => simp [hexEncode, hexByte] at he
    | cons b t2 =>
      have ha : a < 256 := h1 a (by simp)
      have hb : b < 256 := h2 b (by simp)
      simp only [hexEncode, hexByte, List.cons_append, List.nil_append,
        List.cons.injEq] at he
      obtain ⟨e1, e2, e3⟩ := he
      have hab : a = b := by
        have ra := hexDecode_hexByte a ha
        rw [e1, e2, hexDecode_hexByte b hb] at ra
        exact ra.symm
      rw [hab, ih t2 (fun x hx => h1 x (by simp [hx]))
        (fun x hx => h2 x (by simp [hx])) e3]

/-- The five byte groups of `UUID.String` reassemble the UUID. -/
theorem uuid_chunks (u : List Nat) :
    u.take 4 ++ ((u.drop 4).take 2 ++ ((u.drop 6).take 2 ++
      ((u.drop 8).take 2 ++ u.drop 10))) = u := by
  have e1 : (u.drop 4).drop 2 = u.drop 6 := by rw [List.drop_drop]
  have e2 : (u.drop 6).drop 2 = u.drop 8 := by rw [List.drop_drop]
  have e3 : (u.drop 8).drop 2 = u.drop 10 := by rw [List.drop_drop]
  conv_rhs => rw [← List.take_append_drop 4 u]
  congr 1
  conv_rhs => rw [← List.take_append_drop 2 (u.drop 4)]
  rw [e1]
  congr 1
  conv_rhs => rw [← List.take_append_drop 2 (u.drop 6)]
  rw [e2]
  congr 1
  conv_rhs => rw [← List.take_append_drop 2 (u.drop 8)]
  rw [e3]

/-- The lengths of the five hex-encoded groups of a 16-byte UUID. -/
theorem hexEncode_group_lengths (u : List Nat) (hlen : u.length = 16) :
    (hexEncode (u.take 4)).length = 8
    ∧ (hexEncode ((u.drop 4).take 2)).length = 4
    ∧ (hexEncode ((u.drop 6).take 2)).length = 4
    ∧ (hexEncode ((u.drop 8).take 2)).length = 4
    ∧ (hexEncode (u.drop 10)).length = 12 := by
  simp only [hexEncode_length, List.length_take, List.length_drop, hlen,
    Nat.min_def]
  norm_num

/-- Indexing just past a block of known length hits the dash. -/
theorem getD_after (l1 l2 : List Char) (n : Nat) (h : l1.length = n) (d : Char) :
    (l1 ++ '-' :: l2).getD n d = '-' := by
  rw [List.getD_append_right _ _ _ _ (by omega)]
  simp [h]

/-- C10: for every 16-byte domain UUID, `GetOpenstackUUID` (via
`UUID.String`) is total and returns a 36-character string consisting of
lowercase hexadecimal characters except for `'-'` at character offsets 8,
13, 18 and 23 (exactly four dashes), and the map is injective: distinct
UUIDs yield distinct record keys. -/
theorem C10_GetOpenstackUUID (u1 u2 : List Nat)
    (hlen1 : u1.length = 16) (hb1 : ∀ x ∈ u1, x < 256)
    (hlen2 : u2.length = 16) (hb2 : ∀ x ∈ u2, x < 256) :
    (GetOpenstackUUID u1).length = 36
    ∧ (uuidStringChars u1).getD 8 'x' = '-'
    ∧ (uuidStringChars u1).getD 13 'x' = '-'
    ∧ (uuidStringChars u1).getD 18 'x' = '-'
    ∧ (uuidStringChars u1).getD 23 'x' = '-'
    ∧ (uuidStringChars u1).count '-' = 4
    ∧ (∀ c ∈ uuidStringChars u1, c = '-' ∨ isHexChar c)
    ∧ (GetOpenstackUUID u1 = GetOpenstackUUID u2 → u1 = u2) := by
  obtain ⟨lA1, lB1, lC1, lD1, lE1⟩ := hexEncode_group_lengths u1 hlen1
  obtain ⟨lA2, lB2, lC2, lD2, lE2⟩ := hexEncode_group_lengths u2 hlen2
  have bA1 : ∀ x ∈ u1.take 4, x < 256 := fun x hx => hb1 x (List.take_subset _ _ hx)
  have bB1 : ∀ x ∈ (u1.drop 4).take 2, x < 256 :=
    fun x hx => hb1 x (List.drop_subset _ _ (List.take_subset _ _ hx))
  have bC1 : ∀ x ∈ (u1.drop 6).take 2, x < 256 :=
    fun x hx => hb1 x (List.drop_subset _ _ (List.take_subset _ _ hx))
  have bD1 : ∀ x ∈ (u1.drop 8).take 2, x < 256 :=
    fun x hx => hb1 x (List.drop_subset _ _ (List.take_subset _ _ hx))
  have bE1 : ∀ x ∈ u1.drop 10, x < 256 := fun x hx => hb1 x (List.drop_subset _ _ hx)
  have bA2 : ∀ x ∈ u2.take 4, x < 256 := fun x hx => hb2 x (List.take_subset _ _ hx)
  have bB2 : ∀ x ∈ (u2.drop 4).take 2, x < 256 :=
    fun x hx => hb2 x (List.drop_subset _ _ (List.take_subset _ _ hx))
  have bC2 : ∀ x ∈ (u2.drop 6).take 2, x < 256 :=
    fun x hx => hb2 x (List.drop_subset _ _ (List.take_subset _ _ hx))
  have bD2 : ∀ x ∈ (u2.drop 8).take 2, x < 256 :=
    fun x hx => hb2 x (List.drop_subset _ _ (List.take_subset _ _ hx))
  have bE2 : ∀ x ∈ u2.drop 10, x < 256 := fun x hx => hb2 x (List.drop_subset _ _ hx)
  refine ⟨?_, ?_, ?_, ?_, ?_, ?_, ?_, ?_⟩
  · show (uuidStringChars u1).length = 36
    simp only [uuidStringChars, List.length_append, List.length_cons,
      lA1, lB1, lC1, lD1, lE1]
  · exact getD_after _ _ 8 lA1 'x'
  · have assoc : uuidStringChars u1 =
        (hexEncode (u1.take 4) ++ '-' :: hexEncode ((u1.drop 4).take 2)) ++
          '-' :: (hexEncode ((u1.drop 6).take 2) ++
            '-' :: (hexEncode ((u1.drop 8).take 2) ++
              '-' :: hexEncode (u1.drop 10))) := by
      simp [uuidStringChars, List.append_assoc]
    rw [assoc]
    exact getD_after _ _ 13 (by simp [lA1, lB1]) 'x'
  · have assoc : uuidStringChars u1 =
        (hexEncode (u1.take 4) ++ '-' :: (hexEncode ((u1.drop 4).take 2) ++
          '-' :: hexEncode ((u1.drop 6).take 2))) ++
          '-' :: (hexEncode ((u1.drop 8).take 2) ++
            '-' :: hexEncode (u1.drop 10)) := by
      simp [uuidStringChars, List.append_assoc]
    rw [assoc]
    exact getD_after _ _ 18 (by simp [lA1, lB1, lC1]) 'x'
  · have assoc : uuidStringChars u1 =
        (hexEncode (u1.take 4) ++ '-' :: (hexEncode ((u1.drop 4).take 2) ++
          '-' :: (hexEncode ((u1.drop 6).take 2) ++
            '-' :: hexEncode ((u1.drop 8).take 2)))) ++
          '-' :: hexEncode (u1.drop 10) := by
      simp [uuidStringChars, List.append_assoc]
    rw [assoc]
    exact getD_after _ _ 23 (by simp [lA1, lB1, lC1, lD1]) 'x'
  · simp [uuidStringChars, List.count_append, List.count_cons_self,
      count_dash_hexEncode _ bA1, count_dash_hexEncode _ bB1,
      count_dash_hexEncode _ bC1, count_dash_hexEncode _ bD1,
      count_dash_hexEncode _ bE1]
  · intro c hc
    simp only [uuidStringChars, List.mem_append, List.mem_cons] at hc
    rcases hc with h | h | h | h | h | h | h | h | h
    · exact .inr (mem_hexEncode_isHex _ bA1 c h)
    · exact .inl h
    · exact .inr (mem_hexEncode_isHex _ bB1 c h)
    · exact .inl h
    · exact .inr (mem_hexEncode_isHex _ bC1 c h)
    · exact .inl h
    · exact .inr (mem_hexEncode_isHex _ bD1 c h)
    · exact .inl h
    · exact .inr (mem_hexEncode_isHex _ bE1 c h)
  · intro he
    have hdata : uuidStringChars u1 = uuidStringChars u2 := congrArg String.data he
    unfold uuidStringChars at hdata
    obtain ⟨eA, h1⟩ := List.append_inj hdata (by rw [lA1, lA2])
    injection h1 with _ h2
    obtain ⟨eB, h3⟩ := List.append_inj h2 (by rw [lB1, lB2])
    injection h3 with _ h4
    obtain ⟨eC, h5⟩ := List.append_inj h4 (by rw [lC1, lC2])
    injection h5 with _ h6
    obtain ⟨eD, h7⟩ := List.append_inj h6 (by rw [lD1, lD2])
    injection h7 with _ eE
    have k1 := hexEncode_inj _ _ bA1 bA2 eA
    have k2 := hexEncode_inj _ _ bB1 bB2 eB
    have k3 := hexEncode_inj _ _ bC1 bC2 eC
    have k4 := hexEncode_inj _ _ bD1 bD2 eD
    have k5 := hexEncode_inj _ _ bE1 bE2 eE
    rw [← uuid_chunks u1, ← uuid_chunks u2, k1, k2, k3, k4, k5]

/-- Witness for `C10_GetOpenstackUUID` at two concrete distinct UUIDs. -/
theorem C10_witness :
    (GetOpenstackUUID (List.replicate 16 0)).length = 36
    ∧ (uuidStringChars (List.replicate 16 0)).getD 8 'x' = '-'
    ∧ (uuidStringChars (List.replicate 16 0)).getD 13 'x' = '-'
    ∧ (uuidStringChars (List.replicate 16 0)).getD 18 'x' = '-'
    ∧ (uuidStringChars (List.replicate 16 0)).getD 23 'x' = '-'
    ∧ (uuidStringChars (List.replicate 16 0)).count '-' = 4
    ∧ (∀ c ∈ uuidStringChars (List.replicate 16 0), c = '-' ∨ isHexChar c)
    ∧ (GetOpenstackUUID (List.replicate 16 0) =
        GetOpenstackUUID (255 :: List.replicate 15 0) →
        List.replicate 16 0 = 255 :: List.replicate 15 0) :=
  C10_GetOpenstackUUID (List.replicate 16 0) (255 :: List.replicate 15 0)
    (by decide) (by decide) (by decide) (by decide)

end KvmNodeAgent
